import Mathlib

/-!
Verification of the persistence and file-lifecycle layer of the community
website backend (`src/server.js`).  The definitions below are a shallow
embedding of the JavaScript source: the three in-memory collections, the
on-disk JSON snapshot, the uploaded blob files, and the HTTP route handlers
become pure Lean functions over an explicit `ServerState`.  Wall-clock time
(`Date.now()`) and `Math.random()` are passed as explicit parameters, and a
trace of externally visible actions (blob store/delete, record update,
snapshot flush) is returned alongside the new state so that ordering
properties can be stated.
-/

namespace PrayogaShaale

/-- A Photo record (`server.js` lines 70 to 75). -/
structure Photo where
  id : String
  imageUrl : String
  caption : String
  dateAdded : String
deriving DecidableEq

/-- An Event record (`server.js` lines 106 to 114 and 130 to 137).  A JS
`undefined` field and a JS `null` field are both modelled as `none`. -/
structure Event where
  id : String
  title : Option String
  date : Option String
  location : Option String
  description : Option String
  imageUrl : Option String
  dateAdded : String
  dateUpdated : Option String
deriving DecidableEq

/-- The site content object (`let siteContent = {}`): a JS object used as an
open string-to-string map, modelled as an association list in JS insertion
order. -/
abbrev SiteContent := List (String × String)

/-- The three collections held in module-level variables in `server.js`
(lines 38 to 40). -/
structure StoreData where
  photos : List Photo
  events : List Event
  siteContent : SiteContent
deriving DecidableEq

/-- Full server state: the in-memory collections, the last successfully
written on-disk snapshot (the three `data/*.json` files, per collection), and
the set of files existing on disk (absolute paths, covering the uploads
root). -/
structure ServerState where
  data : StoreData
  disk : StoreData
  files : List String
deriving DecidableEq

/-- Externally visible side effects of a request, in execution order. -/
inductive Action where
  | storeBlob (path : String)
  | deleteBlob (path : String)
  | updateRecord (id : String)
  | saveSnapshot
deriving DecidableEq

def Action.isStoreBlob : Action → Bool
  | .storeBlob _ => true
  | _ => false

def Action.isDeleteBlob : Action → Bool
  | .deleteBlob _ => true
  | _ => false

def Action.isUpdateRecord : Action → Bool
  | .updateRecord _ => true
  | _ => false

/-- HTTP responses produced by the handlers, abstracted to status class plus
payload. -/
inductive Response where
  | okPhoto (p : Photo)
  | okEvent (e : Event)
  | okMessage (m : String)
  | okContent (c : SiteContent)
  | badRequest (error : String)
  | notFound (error : String)
  | serverError (error : String)
deriving DecidableEq

/-- `true` exactly for the 4xx/5xx responses. -/
def Response.isError : Response → Bool
  | .badRequest _ => true
  | .notFound _ => true
  | .serverError _ => true
  | _ => false

/-- An incoming multipart file as seen by multer. -/
structure UploadFile where
  originalname : String
  mimetype : String
  size : Nat
deriving DecidableEq

/-- Result of running the `upload.single('image')` middleware. -/
inductive UploadOutcome where
  | ok (filename : String)
  | noFile
  | rejectedType
  | rejectedSize
deriving DecidableEq

def UploadOutcome.accepted : UploadOutcome → Bool
  | .rejectedType => false
  | .rejectedSize => false
  | _ => true

/-! ### String helpers (JS semantics, structurally recursive) -/

/-- If `sep` is a leading segment of `xs`, return the remainder. -/
def consumeSep : List Char → List Char → Option (List Char)
  | [], ys => some ys
  | _ :: _, [] => none
  | x :: xs, y :: ys => if x = y then consumeSep xs ys else none

/-- Fuel-driven scanner implementing JS `String.prototype.split` with a
non-empty string separator. -/
def jsSplitAux (sep : List Char) : Nat → List Char → List Char → List (List Char)
  | 0, acc, _ => [acc.reverse]
  | fuel + 1, acc, xs =>
    match consumeSep sep xs with
    | some rest => acc.reverse :: jsSplitAux sep fuel [] rest
    | none =>
      match xs with
      | [] => [acc.reverse]
      | x :: xs => jsSplitAux sep fuel (x :: acc) xs

/-- JS `s.split(sep)` for a non-empty separator `sep`. -/
def jsSplit (s sep : String) : List String :=
  (jsSplitAux sep.toList (s.toList.length + 1) [] s.toList).map (fun cs => String.mk cs)

/-- JS `s.startsWith(p)` (also multer's `file.mimetype.startsWith('image/')`). -/
def strStartsWith (s p : String) : Bool :=
  (consumeSep p.toList s.toList).isSome

/-- Node `path.extname(name)`: the suffix from the last dot on, empty when
there is no dot or the only dot is the leading character of the name.  (The
argument is the client-supplied original filename, treated as a bare
basename.) -/
def extname (name : String) : String :=
  let rev := name.toList.reverse
  let ext := rev.takeWhile (fun c => c != '.')
  if ext.length = rev.length then ""
  else if rev.drop (ext.length + 1) = [] then ""
  else String.mk ('.' :: ext.reverse)

/-! ### Paths, names and ids -/

/-- The directory the server runs from (`__dirname`, also the working
directory, so the relative `uploads` folder lives under it). -/
def dirname : String := "/app"

/-- `path.join` for the simple two-segment joins the source performs. -/
def pathJoin (a b : String) : String := a ++ "/" ++ b

/-- Absolute path of the uploads root. -/
def uploadsDirPath : String := pathJoin dirname "uploads"

/-- Absolute path at which multer stores a blob with the given filename
(`destination` is `'uploads'`, `server.js` line 22). -/
def storedBlobPath (filename : String) : String := pathJoin uploadsDirPath filename

/-- Multer's generated filename (`server.js` lines 23 to 26):
`Date.now() + '-' + Math.round(Math.random() * 1E9)` plus the original
extension. -/
def makeFilename (now rand : Nat) (originalname : String) : String :=
  toString now ++ "-" ++ toString rand ++ extname originalname

/-- Record id generation (`server.js` lines 71 and 107): `Date.now().toString()`. -/
def genId (now : Nat) : String := toString now

/-- `imageUrl.split('/uploads/')[1]` — the filename the delete/update
handlers extract from a stored image URL (`undefined`, that is `none`, when
the URL does not contain `/uploads/`). -/
def splitUploadsTail (url : String) : Option String :=
  (jsSplit url "/uploads/").get? 1

/-- The 5 MiB upload limit (`limits.fileSize`, `server.js` line 35). -/
def sizeLimit : Nat := 5 * 1024 * 1024

/-- The `upload.single('image')` middleware: the `fileFilter` rejects
non-image mimetypes before anything is written; the `fileSize` limit makes
multer abort an oversized upload with `LIMIT_FILE_SIZE` (the partial file is
removed by multer, so no blob remains).  An accepted file is stored under the
generated filename. -/
def runUpload (now rand : Nat) (file : Option UploadFile) : UploadOutcome :=
  match file with
  | none => .noFile
  | some f =>
    if strStartsWith f.mimetype "image/" then
      if f.size ≤ sizeLimit then .ok (makeFilename now rand f.originalname)
      else .rejectedSize
    else .rejectedType

/-! ### Persistence gateway -/

/-- Startup snapshot resource: missing file, file whose contents fail
`JSON.parse`, or a good parse. -/
inductive Resource (α : Type) where
  | absent
  | corrupt
  | good (value : α)
deriving DecidableEq

/-- Outcome of the startup load: the collections obtained, whether an error
was written to the console, and whether the process treats the condition as
fatal (aborts startup). -/
structure LoadResult where
  loaded : StoreData
  errorLogged : Bool
  fatalExit : Bool
deriving DecidableEq

/-- The startup load (`server.js` lines 42 to 48): one `try` block reads and
parses `photos.json`, then `events.json`, then `content.json`; the first
parse failure jumps to the `catch`, which logs the error and lets the server
continue with whatever was assigned so far (the collections start as `[]`,
`[]`, `{}`). -/
def loadData (pr : Resource (List Photo)) (er : Resource (List Event))
    (cr : Resource SiteContent) : LoadResult :=
  match pr with
  | .corrupt => ⟨⟨[], [], []⟩, true, false⟩
  | _ =>
    let ps := match pr with | .good v => v | _ => []
    match er with
    | .corrupt => ⟨⟨ps, [], []⟩, true, false⟩
    | _ =>
      let es := match er with | .good v => v | _ => []
      match cr with
      | .corrupt => ⟨⟨ps, es, []⟩, true, false⟩
      | _ => ⟨⟨ps, es, match cr with | .good v => v | _ => []⟩, false, false⟩

/-- `saveData` (`server.js` lines 50 to 59): writes the photos, events and
content snapshots in that order inside a `try` whose `catch` only logs — a
failure never propagates to the calling handler.  `failAt = none` means all
three writes succeed; `failAt = some k` means the k-th write (0-based)
throws, so only the earlier writes reached the disk. -/
def saveData (s : ServerState) (failAt : Option Nat) : ServerState :=
  match failAt with
  | none => { s with disk := s.data }
  | some k =>
    let d0 := s.disk
    let d1 := if 0 < k then { d0 with photos := s.data.photos } else d0
    let d2 := if 1 < k then { d1 with events := s.data.events } else d1
    { s with disk := d2 }

/-! ### Route handlers -/

/-- `GET /api/photos` (`server.js` line 64). -/
def listPhotos (s : ServerState) : List Photo := s.data.photos

/-- `GET /api/events` (`server.js` line 101). -/
def listEvents (s : ServerState) : List Event := s.data.events

/-- `POST /api/photos` (`server.js` lines 66 to 83), including the upload
middleware.  `now` is `Date.now()`, `rand` the rounded random suffix,
`nowIso` the `new Date().toISOString()` string. -/
def postPhoto (s : ServerState) (now rand : Nat) (file : Option UploadFile)
    (caption : Option String) (baseUrl nowIso : String) (failAt : Option Nat) :
    ServerState × Response × List Action :=
  match runUpload now rand file with
  | .rejectedType => (s, .serverError "Internal server error", [])
  | .rejectedSize => (s, .badRequest "File is too large. Maximum size is 5MB.", [])
  | .noFile => (s, .badRequest "No image file uploaded", [])
  | .ok fn =>
    let s1 : ServerState := { s with files := s.files ++ [storedBlobPath fn] }
    let newPhoto : Photo :=
      { id := genId now
        imageUrl := baseUrl ++ "/uploads/" ++ fn
        caption := caption.getD ""
        dateAdded := nowIso }
    let s2 : ServerState := { s1 with data := { s1.data with photos := s1.data.photos ++ [newPhoto] } }
    let s3 := saveData s2 failAt
    (s3, .okPhoto newPhoto, [.storeBlob (storedBlobPath fn), .saveSnapshot])

/-- `DELETE /api/photos/:id` (`server.js` lines 85 to 98).  Note the source
computes the path of the blob to unlink as
`path.join(__dirname, photo.imageUrl.split('/uploads/')[1])` — the filename
is joined directly under the server root, without the `uploads` segment. -/
def deletePhoto (s : ServerState) (id : String) (failAt : Option Nat) :
    ServerState × Response × List Action :=
  match s.data.photos.find? (fun p => p.id == id) with
  | none => (s, .notFound "Photo not found", [])
  | some photo =>
    match splitUploadsTail photo.imageUrl with
    | none => (s, .serverError "Failed to delete photo", [])
    | some filename =>
      let imagePath := pathJoin dirname filename
      let existed := s.files.contains imagePath
      let s1 : ServerState := if existed then { s with files := s.files.erase imagePath } else s
      let s2 : ServerState :=
        { s1 with data := { s1.data with photos := s1.data.photos.filter (fun p => p.id != id) } }
      let s3 := saveData s2 failAt
      (s3, .okMessage "Photo deleted successfully",
        (if existed then [Action.deleteBlob imagePath] else []) ++ [Action.saveSnapshot])

/-- Shared tail of `POST /api/events`: push the new record, flush, respond. -/
def finishPostEvent (s : ServerState) (ev : Event) (tr : List Action)
    (failAt : Option Nat) : ServerState × Response × List Action :=
  let s1 : ServerState := { s with data := { s.data with events := s.data.events ++ [ev] } }
  let s2 := saveData s1 failAt
  (s2, .okEvent ev, tr ++ [Action.saveSnapshot])

/-- `POST /api/events` (`server.js` lines 103 to 122), including the upload
middleware.  No field of the body is validated. -/
def postEvent (s : ServerState) (now rand : Nat) (file : Option UploadFile)
    (title date location description : Option String) (baseUrl nowIso : String)
    (failAt : Option Nat) : ServerState × Response × List Action :=
  match runUpload now rand file with
  | .rejectedType => (s, .serverError "Internal server error", [])
  | .rejectedSize => (s, .badRequest "File is too large. Maximum size is 5MB.", [])
  | .noFile =>
    finishPostEvent s
      { id := genId now, title := title, date := date, location := location,
        description := description, imageUrl := none, dateAdded := nowIso,
        dateUpdated := none } [] failAt
  | .ok fn =>
    finishPostEvent { s with files := s.files ++ [storedBlobPath fn] }
      { id := genId now, title := title, date := date, location := location,
        description := description,
        imageUrl := some (baseUrl ++ "/uploads/" ++ fn), dateAdded := nowIso,
        dateUpdated := none } [Action.storeBlob (storedBlobPath fn)] failAt

/-- Shared tail of `PUT /api/events/:id`: `events[eventIndex] = updatedEvent`,
flush, respond. -/
def putEventFinish (s : ServerState) (i : Nat) (updated : Event) (id : String)
    (failAt : Option Nat) (tr : List Action) : ServerState × Response × List Action :=
  let s1 : ServerState := { s with data := { s.data with events := s.data.events.set i updated } }
  let s2 := saveData s1 failAt
  (s2, .okEvent updated, tr ++ [Action.updateRecord id, Action.saveSnapshot])

/-- The handler body of `PUT /api/events/:id` (`server.js` lines 124 to 154),
entered after the upload middleware; `stored` is the filename of the freshly
stored blob, when one was uploaded, and `tr0` the trace accumulated by the
middleware.  When a new file was uploaded and the event already had an image,
the source unlinks the old blob (at `path.join(__dirname, ...)`, again
without the `uploads` segment, and only when a file exists there) before the
record assignment. -/
def putEventCore (s : ServerState) (id : String) (stored : Option String)
    (title date location description : Option String) (baseUrl nowIso : String)
    (failAt : Option Nat) (tr0 : List Action) : ServerState × Response × List Action :=
  let i := s.data.events.findIdx (fun e => e.id == id)
  if h : i < s.data.events.length then
    let old := s.data.events.get ⟨i, h⟩
    let base : Event :=
      { old with title := title, date := date, location := location,
                 description := description, dateUpdated := some nowIso }
    match stored with
    | none => putEventFinish s i base id failAt tr0
    | some fn =>
      let withNew : Event := { base with imageUrl := some (baseUrl ++ "/uploads/" ++ fn) }
      match old.imageUrl with
      | none => putEventFinish s i withNew id failAt tr0
      | some u =>
        match splitUploadsTail u with
        | none => (s, .serverError "Failed to update event", tr0)
        | some oldfn =>
          let p := pathJoin dirname oldfn
          if s.files.contains p then
            putEventFinish { s with files := s.files.erase p } i withNew id failAt
              (tr0 ++ [Action.deleteBlob p])
          else
            putEventFinish s i withNew id failAt tr0
  else (s, .notFound "Event not found", tr0)

/-- `PUT /api/events/:id` (`server.js` lines 124 to 154), including the
upload middleware (which stores the new blob before the handler runs). -/
def putEvent (s : ServerState) (id : String) (now rand : Nat)
    (file : Option UploadFile) (title date location description : Option String)
    (baseUrl nowIso : String) (failAt : Option Nat) :
    ServerState × Response × List Action :=
  match runUpload now rand file with
  | .rejectedType => (s, .serverError "Internal server error", [])
  | .rejectedSize => (s, .badRequest "File is too large. Maximum size is 5MB.", [])
  | .noFile => putEventCore s id none title date location description baseUrl nowIso failAt []
  | .ok fn =>
    putEventCore { s with files := s.files ++ [storedBlobPath fn] } id (some fn)
      title date location description baseUrl nowIso failAt
      [Action.storeBlob (storedBlobPath fn)]

/-- Shared tail of `DELETE /api/events/:id`: splice the record out, flush,
respond. -/
def deleteEventFinish (s : ServerState) (i : Nat) (failAt : Option Nat)
    (tr : List Action) : ServerState × Response × List Action :=
  let s1 : ServerState := { s with data := { s.data with events := s.data.events.eraseIdx i } }
  let s2 := saveData s1 failAt
  (s2, .okMessage "Event deleted successfully", tr ++ [Action.saveSnapshot])

/-- `DELETE /api/events/:id` (`server.js` lines 156 to 173).  The blob unlink
path has the same missing `uploads` segment as the photo delete. -/
def deleteEvent (s : ServerState) (id : String) (failAt : Option Nat) :
    ServerState × Response × List Action :=
  let i := s.data.events.findIdx (fun e => e.id == id)
  if h : i < s.data.events.length then
    let ev := s.data.events.get ⟨i, h⟩
    match ev.imageUrl with
    | none => deleteEventFinish s i failAt []
    | some u =>
      match splitUploadsTail u with
      | none => (s, .serverError "Failed to delete event", [])
      | some fn =>
        let p := pathJoin dirname fn
        if s.files.contains p then
          deleteEventFinish { s with files := s.files.erase p } i failAt [Action.deleteBlob p]
        else deleteEventFinish s i failAt []
  else (s, .notFound "Event not found", [])

/-- Lookup of a key in a JS object modelled as an association list. -/
def objLookup (o : SiteContent) (k : String) : Option String :=
  (o.find? (fun p => p.1 == k)).map (fun p => p.2)

/-- One entry of the spread result coming from the left object: the key keeps
its position, the right object's value wins when both have the key. -/
def overrideEntry (b : SiteContent) (p : String × String) : String × String :=
  match objLookup b p.1 with
  | some v => (p.1, v)
  | none => p

/-- The JS object spread `{...a, ...b}`: the keys of `a` in order, each taking
`b`'s value when `b` also has the key, followed by the keys of `b` that `a`
does not have, in `b`'s order. -/
def mergeObj (a b : SiteContent) : SiteContent :=
  a.map (overrideEntry b) ++ b.filter (fun p => (objLookup a p.1).isNone)

/-- `POST /api/content` (`server.js` lines 178 to 182):
`siteContent = { ...siteContent, ...req.body }`, flush, respond with the
merged mapping. -/
def postContent (s : ServerState) (body : SiteContent) (failAt : Option Nat) :
    ServerState × Response × List Action :=
  let newContent := mergeObj s.data.siteContent body
  let s1 : ServerState := { s with data := { s.data with siteContent := newContent } }
  let s2 := saveData s1 failAt
  (s2, .okContent newContent, [Action.saveSnapshot])

/-- `true` exactly for a 400 response, the shape the source gives to request
validation failures it recognises (`multer.MulterError`). -/
def Response.isBadRequest : Response → Bool
  | .badRequest _ => true
  | _ => false

/-- `true` when no blob deletion happens before the first record update in a
trace: the ordering the specification prescribes for an event update that
replaces the image. -/
def noDeleteBeforeUpdate (t : List Action) : Bool :=
  (t.takeWhile (fun a => !(a.isUpdateRecord))).all (fun a => !(a.isDeleteBlob))

/-- The response the source produces for an invalid upload: the global error
handler turns multer's `LIMIT_FILE_SIZE` error into a 400, while the plain
`Error` thrown by the `fileFilter` for a non-image mimetype falls through to
the generic 500 branch. -/
def rejectionResponse (f : UploadFile) : Response :=
  if strStartsWith f.mimetype "image/" then
    Response.badRequest "File is too large. Maximum size is 5MB."
  else Response.serverError "Internal server error"

/-- What a caller can observe when the k-th of the three snapshot writes
fails during a request `run` (the request abstracted over its `failAt`
parameter): the response and the action trace are the ones of the fully
successful run, the resulting in-memory collections and files equal the
successful run's, the site-content snapshot (the last of the three writes)
keeps its previous on-disk contents, and a failure of the first write leaves
the whole on-disk snapshot unchanged. -/
def failureSwallowed (s : ServerState) (k : Nat)
    (run : Option Nat → ServerState × Response × List Action) : Prop :=
  (run (some k)).2 = (run none).2 ∧
  (run (some k)).1.data = (run none).1.data ∧
  (run (some k)).1.files = (run none).1.files ∧
  (run (some k)).1.disk.siteContent = s.disk.siteContent ∧
  (k = 0 → (run (some k)).1.disk = s.disk)

/-- Structure shared by every route body: either it never reaches `saveData`
(its result ignores `failAt` and its disk is the caller's, untouched), or it
ends in exactly one `saveData` call on a state that still carries the
caller's disk. -/
def SaveShape (s : ServerState)
    (run : Option Nat → ServerState × Response × List Action) : Prop :=
  (∃ r, (∀ fa, run fa = r) ∧ r.1.disk = s.disk) ∨
  (∃ s' resp tr, (∀ fa, run fa = (saveData s' fa, resp, tr)) ∧ s'.disk = s.disk)

/-! ### Helper lemmas -/

theorem saveData_files (s : ServerState) (failAt : Option Nat) :
    (saveData s failAt).files = s.files := by
  cases failAt <;> rfl

theorem saveData_data (s : ServerState) (failAt : Option Nat) :
    (saveData s failAt).data = s.data := by
  cases failAt <;> rfl

theorem saveData_disk_none (s : ServerState) :
    (saveData s none).disk = s.data := rfl

theorem saveData_disk_zero (s : ServerState) :
    (saveData s (some 0)).disk = s.disk := rfl

theorem runUpload_ok (now rand : Nat) (f : UploadFile)
    (himg : strStartsWith f.mimetype "image/" = true) (hsize : f.size ≤ sizeLimit) :
    runUpload now rand (some f) = UploadOutcome.ok (makeFilename now rand f.originalname) := by
  simp only [runUpload]
  rw [if_pos himg, if_pos hsize]

theorem runUpload_rejectedType (now rand : Nat) (f : UploadFile)
    (himg : strStartsWith f.mimetype "image/" = false) :
    runUpload now rand (some f) = UploadOutcome.rejectedType := by
  simp only [runUpload]
  rw [himg]
  rfl

theorem runUpload_rejectedSize (now rand : Nat) (f : UploadFile)
    (himg : strStartsWith f.mimetype "image/" = true) (hbig : sizeLimit < f.size) :
    runUpload now rand (some f) = UploadOutcome.rejectedSize := by
  simp only [runUpload]
  rw [if_pos himg, if_neg (Nat.not_le.mpr hbig)]

theorem saveData_some_disk_siteContent (s : ServerState) (k : Nat) :
    (saveData s (some k)).disk.siteContent = s.disk.siteContent := by
  unfold saveData
  by_cases h0 : 0 < k <;> by_cases h1 : 1 < k <;> simp [h0, h1]

theorem failureSwallowed_of_saveShape (s : ServerState) (k : Nat)
    (run : Option Nat → ServerState × Response × List Action)
    (h : SaveShape s run) : failureSwallowed s k run := by
  rcases h with ⟨r, hr, hd⟩ | ⟨s', resp, tr, hr, hd⟩
  · exact ⟨by rw [hr, hr], by rw [hr, hr], by rw [hr, hr],
      by rw [hr, hd], fun _ => by rw [hr, hd]⟩
  · refine ⟨?_, ?_, ?_, ?_, ?_⟩
    · rw [hr, hr]
    · rw [hr, hr]
      show (saveData s' (some k)).data = (saveData s' none).data
      rw [saveData_data, saveData_data]
    · rw [hr, hr]
      show (saveData s' (some k)).files = (saveData s' none).files
      rw [saveData_files, saveData_files]
    · rw [hr]
      show (saveData s' (some k)).disk.siteContent = s.disk.siteContent
      rw [saveData_some_disk_siteContent, hd]
    · intro hk0
      subst hk0
      rw [hr]
      show (saveData s' (some 0)).disk = s.disk
      rw [saveData_disk_zero, hd]

theorem saveShape_congr (s : ServerState)
    (run1 run2 : Option Nat → ServerState × Response × List Action)
    (h : ∀ fa, run1 fa = run2 fa) (hs : SaveShape s run2) : SaveShape s run1 := by
  rcases hs with ⟨r, hr, hd⟩ | ⟨s', resp, tr, hr, hd⟩
  · exact Or.inl ⟨r, fun fa => (h fa).trans (hr fa), hd⟩
  · exact Or.inr ⟨s', resp, tr, fun fa => (h fa).trans (hr fa), hd⟩

theorem postContent_saveShape (s : ServerState) (body : SiteContent) :
    SaveShape s (postContent s body) :=
  Or.inr ⟨_, _, _, fun _ => rfl, by rfl⟩

theorem postPhoto_saveShape (s : ServerState) (now rand : Nat) (file : Option UploadFile)
    (caption : Option String) (baseUrl nowIso : String) :
    SaveShape s (postPhoto s now rand file caption baseUrl nowIso) := by
  cases ho : runUpload now rand file with
  | rejectedType =>
    exact Or.inl ⟨(s, Response.serverError "Internal server error", []),
      fun fa => by unfold postPhoto; rw [ho], rfl⟩
  | rejectedSize =>
    exact Or.inl ⟨(s, Response.badRequest "File is too large. Maximum size is 5MB.", []),
      fun fa => by unfold postPhoto; rw [ho], rfl⟩
  | noFile =>
    exact Or.inl ⟨(s, Response.badRequest "No image file uploaded", []),
      fun fa => by unfold postPhoto; rw [ho], rfl⟩
  | ok fn =>
    exact Or.inr ⟨_, _, _, fun fa => by unfold postPhoto; rw [ho], by rfl⟩

theorem postEvent_saveShape (s : ServerState) (now rand : Nat) (file : Option UploadFile)
    (title date location description : Option String) (baseUrl nowIso : String) :
    SaveShape s (postEvent s now rand file title date location description baseUrl nowIso) := by
  cases ho : runUpload now rand file with
  | rejectedType =>
    exact Or.inl ⟨(s, Response.serverError "Internal server error", []),
      fun fa => by unfold postEvent; rw [ho], rfl⟩
  | rejectedSize =>
    exact Or.inl ⟨(s, Response.badRequest "File is too large. Maximum size is 5MB.", []),
      fun fa => by unfold postEvent; rw [ho], rfl⟩
  | noFile =>
    exact Or.inr ⟨_, _, _, fun fa => by unfold postEvent finishPostEvent; rw [ho], by rfl⟩
  | ok fn =>
    exact Or.inr ⟨_, _, _, fun fa => by unfold postEvent finishPostEvent; rw [ho], by rfl⟩

theorem deletePhoto_saveShape (s : ServerState) (pid : String) :
    SaveShape s (deletePhoto s pid) := by
  cases hf : s.data.photos.find? (fun p => p.id == pid) with
  | none =>
    exact Or.inl ⟨(s, Response.notFound "Photo not found", []),
      fun fa => by unfold deletePhoto; rw [hf], rfl⟩
  | some photo =>
    cases hsp : splitUploadsTail photo.imageUrl with
    | none =>
      exact Or.inl ⟨(s, Response.serverError "Failed to delete photo", []),
        fun fa => by simp only [deletePhoto, hf, hsp], rfl⟩
    | some filename =>
      by_cases hc : (s.files.contains (pathJoin dirname filename)) = true
      · exact Or.inr ⟨_, _, _,
          fun fa => by simp only [deletePhoto, hf, hsp]; rw [if_pos hc], by rfl⟩
      · exact Or.inr ⟨_, _, _,
          fun fa => by simp only [deletePhoto, hf, hsp]; rw [if_neg hc], by rfl⟩

theorem putEventCore_saveShape (s0 s : ServerState) (hd : s.disk = s0.disk)
    (id : String) (stored : Option String)
    (title date location description : Option String) (baseUrl nowIso : String)
    (tr0 : List Action) :
    SaveShape s0 (fun fa => putEventCore s id stored title date location description
      baseUrl nowIso fa tr0) := by
  by_cases hlt : s.data.events.findIdx (fun e => e.id == id) < s.data.events.length
  · cases stored with
    | none =>
      exact Or.inr ⟨_, _, _,
        fun fa => by simp only [putEventCore, putEventFinish]; rw [dif_pos hlt], by exact hd⟩
    | some fn =>
      cases hImg : (s.data.events.get
          ⟨s.data.events.findIdx (fun e => e.id == id), hlt⟩).imageUrl with
      | none =>
        exact Or.inr ⟨_, _, _,
          fun fa => by simp only [putEventCore, putEventFinish]; rw [dif_pos hlt]; simp only [hImg]; rfl, by exact hd⟩
      | some u =>
        cases hofn : splitUploadsTail u with
        | none =>
          exact Or.inl ⟨(s, Response.serverError "Failed to update event", tr0),
            fun fa => by
              simp only [putEventCore, putEventFinish]; rw [dif_pos hlt]; simp only [hImg, hofn], hd⟩
        | some ofn =>
          by_cases hc : (s.files.contains (pathJoin dirname ofn)) = true
          · exact Or.inr ⟨_, _, _,
              fun fa => by
                simp only [putEventCore, putEventFinish]; rw [dif_pos hlt]; simp only [hImg, hofn]
                rw [if_pos hc], by exact hd⟩
          · exact Or.inr ⟨_, _, _,
              fun fa => by
                simp only [putEventCore, putEventFinish]; rw [dif_pos hlt]; simp only [hImg, hofn]
                rw [if_neg hc], by exact hd⟩
  · exact Or.inl ⟨(s, Response.notFound "Event not found", tr0),
      fun fa => by simp only [putEventCore]; rw [dif_neg hlt], hd⟩

theorem putEvent_saveShape (s : ServerState) (eid : String) (now rand : Nat)
    (file : Option UploadFile) (title date location description : Option String)
    (baseUrl nowIso : String) :
    SaveShape s (putEvent s eid now rand file title date location description baseUrl nowIso) := by
  cases ho : runUpload now rand file with
  | rejectedType =>
    exact Or.inl ⟨(s, Response.serverError "Internal server error", []),
      fun fa => by unfold putEvent; rw [ho], rfl⟩
  | rejectedSize =>
    exact Or.inl ⟨(s, Response.badRequest "File is too large. Maximum size is 5MB.", []),
      fun fa => by unfold putEvent; rw [ho], rfl⟩
  | noFile =>
    refine saveShape_congr s _ _ (fun fa => ?_)
      (putEventCore_saveShape s s rfl eid none title date location description baseUrl nowIso [])
    unfold putEvent
    rw [ho]
  | ok fn =>
    refine saveShape_congr s _ _ (fun fa => ?_)
      (putEventCore_saveShape s { s with files := s.files ++ [storedBlobPath fn] } rfl eid
        (some fn) title date location description baseUrl nowIso
        [Action.storeBlob (storedBlobPath fn)])
    unfold putEvent
    rw [ho]

theorem deleteEvent_saveShape (s : ServerState) (eid : String) :
    SaveShape s (deleteEvent s eid) := by
  by_cases hlt : s.data.events.findIdx (fun e => e.id == eid) < s.data.events.length
  · cases hImg : (s.data.events.get
        ⟨s.data.events.findIdx (fun e => e.id == eid), hlt⟩).imageUrl with
    | none =>
      exact Or.inr ⟨_, _, _,
        fun fa => by simp only [deleteEvent, deleteEventFinish]; rw [dif_pos hlt]; simp only [hImg]; rfl, by rfl⟩
    | some u =>
      cases hofn : splitUploadsTail u with
      | none =>
        exact Or.inl ⟨(s, Response.serverError "Failed to delete event", []),
          fun fa => by
            simp only [deleteEvent, deleteEventFinish]; rw [dif_pos hlt]; simp only [hImg, hofn], rfl⟩
      | some fn =>
        by_cases hc : (s.files.contains (pathJoin dirname fn)) = true
        · exact Or.inr ⟨_, _, _,
            fun fa => by
              simp only [deleteEvent, deleteEventFinish]; rw [dif_pos hlt]; simp only [hImg, hofn]
              rw [if_pos hc], by rfl⟩
        · exact Or.inr ⟨_, _, _,
            fun fa => by
              simp only [deleteEvent, deleteEventFinish]; rw [dif_pos hlt]; simp only [hImg, hofn]
              rw [if_neg hc], by rfl⟩
  · exact Or.inl ⟨(s, Response.notFound "Event not found", []),
      fun fa => by simp only [deleteEvent]; rw [dif_neg hlt], rfl⟩

theorem overrideEntry_fst (b : SiteContent) (p : String × String) :
    (overrideEntry b p).1 = p.1 := by
  unfold overrideEntry
  cases hb : objLookup b p.1 <;> rfl

theorem objLookup_cons (p : String × String) (o : SiteContent) (k : String) :
    objLookup (p :: o) k = if (p.1 == k) = true then some p.2 else objLookup o k := by
  unfold objLookup
  by_cases h : (p.1 == k) = true
  · rw [List.find?_cons_of_pos (p := fun q => q.1 == k) o h, if_pos h]
    rfl
  · rw [List.find?_cons_of_neg (p := fun q => q.1 == k) o h, if_neg h]

theorem objLookup_append (xs ys : SiteContent) (k : String) :
    objLookup (xs ++ ys) k =
      match objLookup xs k with
      | some v => some v
      | none => objLookup ys k := by
  unfold objLookup
  rw [List.find?_append]
  cases hx : xs.find? (fun p => p.1 == k) <;> simp [hx]

theorem objLookup_map_override (b : SiteContent) (k : String) (a : SiteContent) :
    objLookup (a.map (overrideEntry b)) k =
      match objLookup a k with
      | none => none
      | some v =>
        match objLookup b k with
        | some w => some w
        | none => some v := by
  induction a with
  | nil => rfl
  | cons p a ih =>
    rw [List.map_cons, objLookup_cons, objLookup_cons, overrideEntry_fst]
    by_cases h : (p.1 == k) = true
    · rw [if_pos h, if_pos h]
      have hk : p.1 = k := by simpa using h
      rw [← hk]
      unfold overrideEntry
      cases hb : objLookup b p.1 <;> simp [hb]
    · rw [if_neg h, if_neg h, ih]

theorem objLookup_filter_keep (a : SiteContent) (k : String)
    (h : objLookup a k = none) (b : SiteContent) :
    objLookup (b.filter (fun p => (objLookup a p.1).isNone)) k = objLookup b k := by
  induction b with
  | nil => rfl
  | cons q b ih =>
    by_cases hq : (q.1 == k) = true
    · have hk : q.1 = k := by simpa using hq
      have hcond : ((objLookup a q.1).isNone) = true := by rw [hk, h]; rfl
      rw [List.filter_cons_of_pos (p := fun r : String × String => (objLookup a r.1).isNone) hcond,
        objLookup_cons, objLookup_cons, if_pos hq, if_pos hq]
    · cases hcond : ((objLookup a q.1).isNone)
      · rw [List.filter_cons_of_neg (p := fun r : String × String => (objLookup a r.1).isNone)
            (by simp [hcond]),
          objLookup_cons, if_neg hq, ih]
      · rw [List.filter_cons_of_pos (p := fun r : String × String => (objLookup a r.1).isNone) hcond,
          objLookup_cons, objLookup_cons, if_neg hq, if_neg hq, ih]

theorem objLookup_mergeObj (a b : SiteContent) (k : String) :
    objLookup (mergeObj a b) k =
      match objLookup b k with
      | some v => some v
      | none => objLookup a k := by
  unfold mergeObj
  rw [objLookup_append, objLookup_map_override]
  cases ha : objLookup a k with
  | none =>
    simp only []
    rw [objLookup_filter_keep a k ha b]
    cases objLookup b k <;> rfl
  | some v =>
    cases objLookup b k <;> rfl

/-! ### Claim theorems -/

/-- Claim C1: the claim states that deleting a stored photo removes it from
`listPhotos` and removes its blob from the uploads root.  The record removal
holds, but the source unlinks at `path.join(__dirname, filename)` — without
the `uploads` segment — so the blob stored at `/app/uploads/f.jpg` survives
the delete and an existence check on it still returns true.  This theorem
evaluates the handler at the failing input. -/
theorem C1_delete_photo_leaves_blob :
    let ph : Photo := ⟨"1", "http://h/uploads/f.jpg", "", "d0"⟩
    let s : ServerState := ⟨⟨[ph], [], []⟩, ⟨[ph], [], []⟩, [storedBlobPath "f.jpg"]⟩
    let r := deletePhoto s "1" none
    listPhotos r.1 = [] ∧
    r.1.files.contains (storedBlobPath "f.jpg") = true ∧
    (r.2.2).all (fun a => !(a.isDeleteBlob)) = true ∧
    r.2.1 = Response.okMessage "Photo deleted successfully" := by
  decide

/-- Claim C2: the claim states that two uploads in the same millisecond get
distinct record ids and distinct blob filenames.  Ids are generated as
`Date.now().toString()` with no disambiguator, so two photos added at the
same `now` receive the identical id `"1000"`; only the filenames (which do
carry the random suffix) differ.  This theorem evaluates the two adds at the
failing input. -/
theorem C2_same_millisecond_duplicate_ids :
    let s0 : ServerState := ⟨⟨[], [], []⟩, ⟨[], [], []⟩, []⟩
    let r1 := postPhoto s0 1000 1 (some ⟨"a.jpg", "image/jpeg", 10⟩) none "http://h" "d1" none
    let r2 := postPhoto r1.1 1000 2 (some ⟨"b.jpg", "image/jpeg", 10⟩) none "http://h" "d2" none
    (listPhotos r2.1).map Photo.id = ["1000", "1000"] ∧
    (listPhotos r2.1).map Photo.imageUrl =
      ["http://h/uploads/1000-1.jpg", "http://h/uploads/1000-2.jpg"] := by
  decide

/-- Claim C3, counterexample: the claim states that on an event update with a
new blob the record is updated before the previous blob is deleted.  At this
input (the old blob present at the path the handler computes) the trace is
store-new, delete-old, update-record, flush: the deletion precedes the record
update. -/
theorem C3_delete_precedes_update :
    let ev : Event := ⟨"1", some "t", some "d", some "l", some "x",
      some "http://h/uploads/old.jpg", "d0", none⟩
    let s : ServerState := ⟨⟨[], [ev], []⟩, ⟨[], [ev], []⟩, [pathJoin dirname "old.jpg"]⟩
    let t := (putEvent s "1" 2000 7 (some ⟨"n.png", "image/png", 10⟩)
      (some "t2") (some "d2") (some "l2") (some "x2") "http://h" "iso1" none).2.2
    t = [Action.storeBlob "/app/uploads/2000-7.png", Action.deleteBlob "/app/old.jpg",
         Action.updateRecord "1", Action.saveSnapshot] ∧
    noDeleteBeforeUpdate t = false := by
  decide

/-- Claim C4, counterexample: the claim states that a corrupt snapshot makes
startup fail fatally.  The startup load catches the parse error, logs it and
continues running, so the condition is not fatal. -/
theorem C4_corrupt_load_not_fatal :
    (loadData Resource.corrupt Resource.absent Resource.absent).fatalExit = false ∧
    (loadData Resource.corrupt Resource.absent Resource.absent).errorLogged = true := by
  decide

/-- Claim C5, counterexample: the claim states that a failed persistence
write is reported as an error to the immediate caller.  With the snapshot
write failing (`failAt = some 0`) the photo upload still answers with the
success payload — `saveData` swallows the exception — while the on-disk
snapshot is left stale and the in-memory list already holds the new record. -/
theorem C5_write_failure_swallowed :
    let s0 : ServerState := ⟨⟨[], [], []⟩, ⟨[], [], []⟩, []⟩
    let r := postPhoto s0 1000 1 (some ⟨"a.jpg", "image/jpeg", 10⟩) none "http://h" "d1" (some 0)
    (r.2.1).isError = false ∧
    r.2.1 = Response.okPhoto ⟨"1000", "http://h/uploads/1000-1.jpg", "", "d1"⟩ ∧
    r.1.disk = s0.disk ∧
    r.1.data.photos = [⟨"1000", "http://h/uploads/1000-1.jpg", "", "d1"⟩] := by
  decide

/-- Claim C9, counterexample: the claim states that a non-image upload is
rejected with a validation error.  The `fileFilter` throws a plain `Error`,
which the global error handler does not recognise as a `MulterError`, so the
client receives a 500 `Internal server error` instead of a 400 validation
response (though indeed no blob and no record is created). -/
theorem C9_non_image_is_server_error :
    let s0 : ServerState := ⟨⟨[], [], []⟩, ⟨[], [], []⟩, []⟩
    let r := postPhoto s0 1000 1 (some ⟨"a.txt", "text/plain", 10⟩) none "http://h" "d1" none
    r.2.1 = Response.serverError "Internal server error" ∧
    (r.2.1).isBadRequest = false ∧
    r.1 = s0 ∧
    r.2.2 = [] := by
  decide

/-- Claim C7: `POST /api/content` shallow-merges the supplied keys into the
site content — a supplied key takes the supplied value, any other key keeps
its previous value — and responds with the resulting full mapping.  The
chained examples of the claim (`a:1` then `b:2` then `a:3`) are instances of
the lookup characterisation. -/
theorem C7_merge_content (s : ServerState) (body : SiteContent)
    (failAt : Option Nat) (k : String) :
    (postContent s body failAt).2.1 =
      Response.okContent ((postContent s body failAt).1.data.siteContent) ∧
    objLookup ((postContent s body failAt).1.data.siteContent) k =
      (match objLookup body k with
       | some v => some v
       | none => objLookup s.data.siteContent k) := by
  constructor
  · show Response.okContent (mergeObj s.data.siteContent body) =
      Response.okContent ((saveData _ failAt).data.siteContent)
    rw [saveData_data]
  · show objLookup ((saveData _ failAt).data.siteContent) k = _
    rw [saveData_data]
    exact objLookup_mergeObj s.data.siteContent body k

/-- Claim C8: deleting an id that resolves to no photo (and no event) answers
404 `NotFound`, leaves the whole state — collections, snapshot and files —
unchanged, and performs no blob deletion and no persistence flush (empty
action trace). -/
theorem C8_delete_missing_id (s : ServerState) (id : String) (failAt : Option Nat)
    (hp : ∀ p ∈ s.data.photos, p.id ≠ id)
    (he : ∀ e ∈ s.data.events, e.id ≠ id) :
    deletePhoto s id failAt = (s, Response.notFound "Photo not found", []) ∧
    deleteEvent s id failAt = (s, Response.notFound "Event not found", []) := by
  constructor
  · have hfind : s.data.photos.find? (fun p => p.id == id) = none :=
      List.find?_eq_none.mpr (fun x hx => by simpa using hp x hx)
    unfold deletePhoto
    rw [hfind]
  · have hlen : s.data.events.findIdx (fun e => e.id == id) = s.data.events.length :=
      List.findIdx_eq_length_of_false (fun x hx => by simpa using he x hx)
    unfold deleteEvent
    simp only [hlen]
    rw [dif_neg (Nat.lt_irrefl _)]

/-- Witness for C8 at a concrete store holding one photo and one event with
other ids. -/
theorem C8_delete_missing_id_witness :
    deletePhoto ⟨⟨[⟨"2", "http://h/uploads/g.jpg", "", "d0"⟩],
        [⟨"3", none, none, none, none, none, "d0", none⟩], []⟩,
      ⟨[], [], []⟩, []⟩ "1" none =
      (⟨⟨[⟨"2", "http://h/uploads/g.jpg", "", "d0"⟩],
          [⟨"3", none, none, none, none, none, "d0", none⟩], []⟩,
        ⟨[], [], []⟩, []⟩, Response.notFound "Photo not found", []) ∧
    deleteEvent ⟨⟨[⟨"2", "http://h/uploads/g.jpg", "", "d0"⟩],
        [⟨"3", none, none, none, none, none, "d0", none⟩], []⟩,
      ⟨[], [], []⟩, []⟩ "1" none =
      (⟨⟨[⟨"2", "http://h/uploads/g.jpg", "", "d0"⟩],
          [⟨"3", none, none, none, none, none, "d0", none⟩], []⟩,
        ⟨[], [], []⟩, []⟩, Response.notFound "Event not found", []) :=
  C8_delete_missing_id _ "1" none (by decide) (by decide)

/-- Claim C4 (amended): a snapshot resource with invalid serialized data does
not abort startup; the parse error is logged (surfaced to the operator on the
console) and the server continues with the collections assigned before the
failure — the defaults for the rest.  Any corrupt resource triggers the log;
none is fatal. -/
theorem C4_amended_corrupt_load_logged_nonfatal (pr : Resource (List Photo))
    (er : Resource (List Event)) (cr : Resource SiteContent) :
    (loadData pr er cr).fatalExit = false ∧
    ((pr = Resource.corrupt ∨ er = Resource.corrupt ∨ cr = Resource.corrupt) →
      (loadData pr er cr).errorLogged = true) := by
  cases pr <;> cases er <;> cases cr <;> simp [loadData]

/-- Witness for the amended C4 at a corrupt photos snapshot. -/
theorem C4_amended_witness :
    (loadData Resource.corrupt Resource.absent Resource.absent).fatalExit = false ∧
    (loadData Resource.corrupt Resource.absent Resource.absent).errorLogged = true :=
  ⟨(C4_amended_corrupt_load_logged_nonfatal Resource.corrupt Resource.absent
      Resource.absent).1,
   (C4_amended_corrupt_load_logged_nonfatal Resource.corrupt Resource.absent
      Resource.absent).2 (Or.inl rfl)⟩

/-- Claim C5 (amended): for every mutation — photo add and delete, event
add, update and delete, content merge — and every failing snapshot write (the
k-th of the three writes, k < 3), `saveData` catches the exception and only
logs it: the operation's response and action trace are identical to those of
the same request with all writes succeeding, so the failure is never reported
to the immediate caller; the resulting in-memory collections and files also
equal the successful run's (the mutation stands); but the site-content write
never reaches the disk, and when the first write fails the entire on-disk
snapshot keeps its previous contents — the in-memory state is indeed not
durable, yet the caller is shown success, never a WriteError. -/
theorem C5_amended_write_failure_swallowed (s : ServerState) (k : Nat) (_hk : k < 3)
    (now rand : Nat) (file : Option UploadFile)
    (caption title date location description : Option String)
    (baseUrl nowIso : String) (pid eid : String) (body : SiteContent) :
    failureSwallowed s k (postPhoto s now rand file caption baseUrl nowIso) ∧
    failureSwallowed s k (deletePhoto s pid) ∧
    failureSwallowed s k
      (postEvent s now rand file title date location description baseUrl nowIso) ∧
    failureSwallowed s k
      (putEvent s eid now rand file title date location description baseUrl nowIso) ∧
    failureSwallowed s k (deleteEvent s eid) ∧
    failureSwallowed s k (postContent s body) :=
  ⟨failureSwallowed_of_saveShape s k _
      (postPhoto_saveShape s now rand file caption baseUrl nowIso),
   failureSwallowed_of_saveShape s k _ (deletePhoto_saveShape s pid),
   failureSwallowed_of_saveShape s k _
      (postEvent_saveShape s now rand file title date location description baseUrl nowIso),
   failureSwallowed_of_saveShape s k _
      (putEvent_saveShape s eid now rand file title date location description baseUrl nowIso),
   failureSwallowed_of_saveShape s k _ (deleteEvent_saveShape s eid),
   failureSwallowed_of_saveShape s k _ (postContent_saveShape s body)⟩

/-- Witness for the amended C5: the first snapshot write failing (k = 0) on
concrete requests of all six mutation kinds. -/
theorem C5_amended_witness :
    failureSwallowed ⟨⟨[], [], []⟩, ⟨[], [], []⟩, []⟩ 0
      (postPhoto ⟨⟨[], [], []⟩, ⟨[], [], []⟩, []⟩ 1000 1
        (some ⟨"a.jpg", "image/jpeg", 10⟩) none "http://h" "d1") ∧
    failureSwallowed ⟨⟨[], [], []⟩, ⟨[], [], []⟩, []⟩ 0
      (deletePhoto ⟨⟨[], [], []⟩, ⟨[], [], []⟩, []⟩ "p1") ∧
    failureSwallowed ⟨⟨[], [], []⟩, ⟨[], [], []⟩, []⟩ 0
      (postEvent ⟨⟨[], [], []⟩, ⟨[], [], []⟩, []⟩ 1000 1
        (some ⟨"a.jpg", "image/jpeg", 10⟩) (some "t") none none none "http://h" "d1") ∧
    failureSwallowed ⟨⟨[], [], []⟩, ⟨[], [], []⟩, []⟩ 0
      (putEvent ⟨⟨[], [], []⟩, ⟨[], [], []⟩, []⟩ "e1" 1000 1
        (some ⟨"a.jpg", "image/jpeg", 10⟩) (some "t") none none none "http://h" "d1") ∧
    failureSwallowed ⟨⟨[], [], []⟩, ⟨[], [], []⟩, []⟩ 0
      (deleteEvent ⟨⟨[], [], []⟩, ⟨[], [], []⟩, []⟩ "e1") ∧
    failureSwallowed ⟨⟨[], [], []⟩, ⟨[], [], []⟩, []⟩ 0
      (postContent ⟨⟨[], [], []⟩, ⟨[], [], []⟩, []⟩ [("a", "1")]) :=
  C5_amended_write_failure_swallowed ⟨⟨[], [], []⟩, ⟨[], [], []⟩, []⟩ 0 (by decide)
    1000 1 (some ⟨"a.jpg", "image/jpeg", 10⟩) none (some "t") none none none
    "http://h" "d1" "p1" "e1" [("a", "1")]

/-- Claim C9 (amended): an invalid upload (non-image mimetype or size above
5 MiB) is rejected before any state change — no blob is stored, no record is
created, no flush happens, the state is returned untouched — but the response
class differs from the claim: the oversize case is a 400 validation response,
while the non-image case surfaces as a 500 internal error because the
fileFilter throws a plain `Error` that the global handler does not map to a
400. -/
theorem C9_amended_invalid_upload_rejected (s : ServerState) (now rand : Nat)
    (f : UploadFile) (caption title date location description : Option String)
    (baseUrl nowIso : String) (failAt : Option Nat)
    (hbad : strStartsWith f.mimetype "image/" = false ∨ sizeLimit < f.size) :
    postPhoto s now rand (some f) caption baseUrl nowIso failAt =
      (s, rejectionResponse f, []) ∧
    postEvent s now rand (some f) title date location description baseUrl nowIso failAt =
      (s, rejectionResponse f, []) := by
  have split :
      runUpload now rand (some f) = UploadOutcome.rejectedType ∧
        rejectionResponse f = Response.serverError "Internal server error" ∨
      runUpload now rand (some f) = UploadOutcome.rejectedSize ∧
        rejectionResponse f = Response.badRequest "File is too large. Maximum size is 5MB." := by
    rcases hbad with h | h
    · exact Or.inl ⟨runUpload_rejectedType now rand f h,
        by unfold rejectionResponse; rw [h]; rfl⟩
    · cases himg : strStartsWith f.mimetype "image/" with
      | false => exact Or.inl ⟨runUpload_rejectedType now rand f himg,
          by unfold rejectionResponse; rw [himg]; rfl⟩
      | true => exact Or.inr ⟨runUpload_rejectedSize now rand f himg h,
          by unfold rejectionResponse; rw [himg]; rfl⟩
  rcases split with ⟨h1, h2⟩ | ⟨h1, h2⟩ <;>
    (unfold postPhoto postEvent; rw [h1, h2]; exact ⟨rfl, rfl⟩)

/-- Claim C3 (amended): when an existing event is updated with a new blob,
the order of steps is: the new blob is stored first (by the upload
middleware, before the handler body runs), then the previous blob's unlink
step runs (removing the file when one exists at the path the handler
computes), and the record update happens last, immediately before the
persistence flush — the record is updated after, not before, the old blob
deletion. -/
theorem C3_amended_store_delete_update (s : ServerState) (id : String) (now rand : Nat)
    (f : UploadFile) (title date location description : Option String)
    (baseUrl nowIso : String) (failAt : Option Nat)
    (himg : strStartsWith f.mimetype "image/" = true) (hsize : f.size ≤ sizeLimit)
    (hi : s.data.events.findIdx (fun e => e.id == id) < s.data.events.length)
    (hsplit : ∀ u, (s.data.events.get
        ⟨s.data.events.findIdx (fun e => e.id == id), hi⟩).imageUrl = some u →
      (splitUploadsTail u).isSome = true) :
    ∃ mid, (mid = [] ∨ ∃ p, mid = [Action.deleteBlob p]) ∧
      (putEvent s id now rand (some f) title date location description baseUrl nowIso
          failAt).2.2
        = Action.storeBlob (storedBlobPath (makeFilename now rand f.originalname))
            :: (mid ++ [Action.updateRecord id, Action.saveSnapshot]) := by
  have hstep : putEvent s id now rand (some f) title date location description baseUrl
        nowIso failAt
      = putEventCore
          { s with files := s.files ++ [storedBlobPath (makeFilename now rand f.originalname)] }
          id (some (makeFilename now rand f.originalname)) title date location description
          baseUrl nowIso failAt
          [Action.storeBlob (storedBlobPath (makeFilename now rand f.originalname))] := by
    unfold putEvent
    rw [runUpload_ok now rand f himg hsize]
  rw [hstep]
  simp only [putEventCore]
  rw [dif_pos hi]
  cases hImg : (s.data.events.get ⟨s.data.events.findIdx (fun e => e.id == id), hi⟩).imageUrl with
  | none => exact ⟨[], Or.inl rfl, rfl⟩
  | some u =>
    obtain ⟨ofn, hofn⟩ := Option.isSome_iff_exists.mp (hsplit u hImg)
    simp only [hofn]
    by_cases hc : ((s.files ++ [storedBlobPath (makeFilename now rand f.originalname)]).contains
        (pathJoin dirname ofn)) = true
    · rw [if_pos hc]
      exact ⟨[Action.deleteBlob (pathJoin dirname ofn)], Or.inr ⟨_, rfl⟩, rfl⟩
    · rw [if_neg hc]
      exact ⟨[], Or.inl rfl, rfl⟩

/-- Witness for the amended C3 at a concrete event that had no previous
image: the trace is store-new, update-record, flush. -/
theorem C3_amended_witness :
    ∃ mid, (mid = [] ∨ ∃ p, mid = [Action.deleteBlob p]) ∧
      (putEvent ⟨⟨[], [⟨"1", some "t", none, none, none, none, "d0", none⟩], []⟩,
          ⟨[], [], []⟩, []⟩ "1" 2000 7 (some ⟨"n.png", "image/png", 10⟩)
          (some "t2") none none none "http://h" "iso1" none).2.2
        = Action.storeBlob (storedBlobPath (makeFilename 2000 7 "n.png"))
            :: (mid ++ [Action.updateRecord "1", Action.saveSnapshot]) :=
  C3_amended_store_delete_update
    ⟨⟨[], [⟨"1", some "t", none, none, none, none, "d0", none⟩], []⟩,
      ⟨[], [], []⟩, []⟩ "1" 2000 7 ⟨"n.png", "image/png", 10⟩
    (some "t2") none none none "http://h" "iso1" none rfl (by decide) (by decide)
    (fun u h => by simp at h)

/-- Claim C10: `POST /api/events` validates nothing: whenever the upload
middleware passes (in particular when no file and none of the four text
fields are supplied), an Event record is created carrying exactly the
supplied (possibly absent) field values, appended to the collection,
persisted, and returned with a success response — the handler never produces
a validation error. -/
theorem C10_add_event_unvalidated (s : ServerState) (now rand : Nat)
    (file : Option UploadFile) (title date location description : Option String)
    (baseUrl nowIso : String) (failAt : Option Nat)
    (hok : (runUpload now rand file).accepted = true) :
    ∃ e, (postEvent s now rand file title date location description baseUrl nowIso
          failAt).2.1 = Response.okEvent e ∧
      (postEvent s now rand file title date location description baseUrl nowIso
          failAt).1.data.events = s.data.events ++ [e] ∧
      e.id = genId now ∧ e.title = title ∧ e.date = date ∧ e.location = location ∧
      e.description = description ∧ e.dateAdded = nowIso ∧
      Action.saveSnapshot ∈ (postEvent s now rand file title date location description
          baseUrl nowIso failAt).2.2 := by
  cases ho : runUpload now rand file with
  | rejectedType =>
    rw [ho] at hok
    simp [UploadOutcome.accepted] at hok
  | rejectedSize =>
    rw [ho] at hok
    simp [UploadOutcome.accepted] at hok
  | noFile =>
    unfold postEvent
    rw [ho]
    refine ⟨_, rfl, ?_, rfl, rfl, rfl, rfl, rfl, rfl, ?_⟩
    · unfold finishPostEvent
      show (saveData _ failAt).data.events = _
      rw [saveData_data]
    · unfold finishPostEvent
      simp
  | ok fn =>
    unfold postEvent
    rw [ho]
    refine ⟨_, rfl, ?_, rfl, rfl, rfl, rfl, rfl, rfl, ?_⟩
    · unfold finishPostEvent
      show (saveData _ failAt).data.events = _
      rw [saveData_data]
    · unfold finishPostEvent
      simp

/-- Witness for C10: a request with no file and none of the fields still
creates, persists and returns an event record. -/
theorem C10_add_event_unvalidated_witness :
    ∃ e, (postEvent ⟨⟨[], [], []⟩, ⟨[], [], []⟩, []⟩ 1000 1 none
          none none none none "http://h" "d1" none).2.1 = Response.okEvent e ∧
      (postEvent ⟨⟨[], [], []⟩, ⟨[], [], []⟩, []⟩ 1000 1 none
          none none none none "http://h" "d1" none).1.data.events = [] ++ [e] ∧
      e.id = genId 1000 ∧ e.title = none ∧ e.date = none ∧ e.location = none ∧
      e.description = none ∧ e.dateAdded = "d1" ∧
      Action.saveSnapshot ∈ (postEvent ⟨⟨[], [], []⟩, ⟨[], [], []⟩, []⟩ 1000 1 none
          none none none none "http://h" "d1" none).2.2 :=
  C10_add_event_unvalidated ⟨⟨[], [], []⟩, ⟨[], [], []⟩, []⟩ 1000 1 none
    none none none none "http://h" "d1" none rfl

/-- Claim C6: updating an existing event without supplying a new blob keeps
the event's image reference exactly as it was (the updated record is the old
record with only the four text fields and `dateUpdated` replaced), leaves the
files on disk completely untouched, and performs no blob store or delete
action. -/
theorem C6_update_event_without_image (s : ServerState) (id : String) (now rand : Nat)
    (title date location description : Option String) (baseUrl nowIso : String)
    (failAt : Option Nat)
    (hi : s.data.events.findIdx (fun e => e.id == id) < s.data.events.length) :
    (putEvent s id now rand none title date location description baseUrl nowIso failAt).1.files
      = s.files ∧
    (putEvent s id now rand none title date location description baseUrl nowIso
        failAt).1.data.events[s.data.events.findIdx (fun e => e.id == id)]?
      = some { s.data.events.get ⟨s.data.events.findIdx (fun e => e.id == id), hi⟩ with
               title := title, date := date, location := location,
               description := description, dateUpdated := some nowIso } ∧
    (putEvent s id now rand none title date location description baseUrl nowIso failAt).2.2
      = [Action.updateRecord id, Action.saveSnapshot] := by
  have hcore : putEvent s id now rand none title date location description baseUrl nowIso failAt
      = putEventFinish s (s.data.events.findIdx (fun e => e.id == id))
          { s.data.events.get ⟨s.data.events.findIdx (fun e => e.id == id), hi⟩ with
            title := title, date := date, location := location,
            description := description, dateUpdated := some nowIso } id failAt [] := by
    show putEventCore s id none title date location description baseUrl nowIso failAt [] = _
    simp only [putEventCore]
    rw [dif_pos hi]
  rw [hcore]
  unfold putEventFinish
  refine ⟨?_, ?_, ?_⟩
  · rw [saveData_files]
  · show (saveData _ failAt).data.events[_]? = _
    rw [saveData_data]
    exact List.getElem?_set_self hi
  · rfl

/-- Witness for C6: a concrete event updated without an image keeps its
image reference and its blob. -/
theorem C6_update_event_without_image_witness :
    (putEvent ⟨⟨[], [⟨"1", some "t", some "d", some "l", some "x",
          some "http://h/uploads/old.jpg", "d0", none⟩], []⟩,
        ⟨[], [], []⟩, [storedBlobPath "old.jpg"]⟩ "1" 2000 7 none
        (some "t2") none none none "http://h" "iso1" none).1.files
      = [storedBlobPath "old.jpg"] ∧
    (putEvent ⟨⟨[], [⟨"1", some "t", some "d", some "l", some "x",
          some "http://h/uploads/old.jpg", "d0", none⟩], []⟩,
        ⟨[], [], []⟩, [storedBlobPath "old.jpg"]⟩ "1" 2000 7 none
        (some "t2") none none none "http://h" "iso1" none).1.data.events[0]?
      = some ⟨"1", some "t2", none, none, none,
          some "http://h/uploads/old.jpg", "d0", some "iso1"⟩ ∧
    (putEvent ⟨⟨[], [⟨"1", some "t", some "d", some "l", some "x",
          some "http://h/uploads/old.jpg", "d0", none⟩], []⟩,
        ⟨[], [], []⟩, [storedBlobPath "old.jpg"]⟩ "1" 2000 7 none
        (some "t2") none none none "http://h" "iso1" none).2.2
      = [Action.updateRecord "1", Action.saveSnapshot] := by
  have h := C6_update_event_without_image
    ⟨⟨[], [⟨"1", some "t", some "d", some "l", some "x",
        some "http://h/uploads/old.jpg", "d0", none⟩], []⟩,
      ⟨[], [], []⟩, [storedBlobPath "old.jpg"]⟩ "1" 2000 7
    (some "t2") none none none "http://h" "iso1" none (by decide)
  exact ⟨h.1, h.2.1, h.2.2⟩

/-- Witness for the amended C9: a text file upload is turned away with the
500 response and no state change, on both the photo and the event route. -/
theorem C9_amended_witness :
    postPhoto ⟨⟨[], [], []⟩, ⟨[], [], []⟩, []⟩ 1000 1
        (some ⟨"a.txt", "text/plain", 10⟩) none "http://h" "d1" none =
      (⟨⟨[], [], []⟩, ⟨[], [], []⟩, []⟩, rejectionResponse ⟨"a.txt", "text/plain", 10⟩, []) ∧
    postEvent ⟨⟨[], [], []⟩, ⟨[], [], []⟩, []⟩ 1000 1
        (some ⟨"a.txt", "text/plain", 10⟩) none none none none "http://h" "d1" none =
      (⟨⟨[], [], []⟩, ⟨[], [], []⟩, []⟩, rejectionResponse ⟨"a.txt", "text/plain", 10⟩, []) :=
  C9_amended_invalid_upload_rejected ⟨⟨[], [], []⟩, ⟨[], [], []⟩, []⟩ 1000 1
    ⟨"a.txt", "text/plain", 10⟩ none none none none none "http://h" "d1" none
    (Or.inl rfl)

end PrayogaShaale
